import Mathlib

/-!
Verification of the block-versioned entity store in
`src/store/postgres/src/deployment_store.rs`.

The definitions below are a shallow embedding of `DeploymentStore`.
Collaborator modules of the repository that are not under `src/`
(`crate::deployment`, `crate::dynds`, `crate::relational::Layout`, the
`nebula_rust` client) are modelled from the spec; each such definition
carries a doc comment starting with `Modelled from the spec:`.
Block numbers are `i32` in the source (`BlockNumber`); they are embedded
as `Int`, with the one overflow-relevant spot (`checked_add` in
`start_subgraph`) guarded by an explicit `i32_max` bound.
-/

deriving instance DecidableEq for Except

namespace DeploymentStore

/-- A block hash, `Vec<u8>` in the source. -/
abbrev BlockHash := List Nat

/-- Embeds `BlockPtr`: `(number, hash)`, embedding `graph::prelude::BlockPtr`. -/
structure BlockPtr where
  number : Int
  hash : BlockHash
deriving Repr, DecidableEq

/-- Embeds `EntityKey`: `(entity_type, entity_id)`. -/
structure EntityKey where
  entityType : String
  entityId : String
deriving Repr, DecidableEq

/-- Entity data: the attribute map of an entity (`BTreeMap<String, Value>`),
embedded as an association list. -/
abbrev Entity := List (String × String)

/-- Embeds `EntityModification`: one of Insert(key, data), Overwrite(key, data),
Remove(key). -/
inductive EntityModification where
  | insert (key : EntityKey) (data : Entity)
  | overwrite (key : EntityKey) (data : Entity)
  | remove (key : EntityKey)
deriving Repr, DecidableEq

/-- The key carried by a modification. -/
def EntityModification.entityKey : EntityModification → EntityKey
  | .insert key _ => key
  | .overwrite key _ => key
  | .remove key => key

/-- True for `Insert` and `Overwrite`, false for `Remove`. -/
def EntityModification.isWrite : EntityModification → Bool
  | .insert _ _ => true
  | .overwrite _ _ => true
  | .remove _ => false

/-- Embeds `EntityWithSpaceName` from the bottom of `deployment_store.rs`: the
record pushed for the nebula mirror batch. -/
structure EntityWithSpaceName where
  space_name : String
  entity : Entity
  block_number : Int
deriving Repr, DecidableEq

/-- One row of the versioned entity storage (spec section 3): a version of
a logical entity valid over the half-open block range
`[startBlock, endBlock)`; `endBlock = none` means the version is open
(valid until infinity). -/
structure VersionRow where
  key : EntityKey
  startBlock : Int
  endBlock : Option Int
deriving Repr, DecidableEq

/-- A stored dynamic data source. -/
structure DynDS where
  name : String
  creationBlock : Int
deriving Repr, DecidableEq

/-- A recorded subgraph error row. -/
structure SubgraphErrorRec where
  errId : String
  deterministic : Bool
  blockNumber : Int
deriving Repr, DecidableEq

/-- Embeds `deployment::SubgraphHealth`. -/
inductive SubgraphHealth where
  | healthy
  | unhealthy
  | failed
deriving Repr, DecidableEq

/-- The lower bound of a stored error block range (`std::ops::Bound`). -/
inductive RangeLower where
  | included (n : Int)
  | excluded (n : Int)
  | unbounded
deriving Repr, DecidableEq

/-- Embeds `detail::ErrorDetail`, restricted to the fields read by the unfail
routines: id, determinism flag, optional block hash, and the lower bound of
the block range. -/
structure ErrorDetail where
  errId : String
  deterministic : Bool
  blockHash : Option BlockHash
  blockRangeLower : RangeLower
deriving Repr, DecidableEq

/-- A proof-of-indexing carrier row: causality region, digest bytes and
the block range over which it is valid. -/
structure PoiRow where
  region : String
  digest : List Nat
  startBlock : Int
  endBlock : Option Int
deriving Repr, DecidableEq

/-- The per-deployment persistent state visible to the routines under
verification: the versioned entity rows, head block pointer, firehose
cursor, entity count, dynamic data sources, error rows, earliest-block
retention floor, graft point, the fatal error record and health. -/
structure StoreState where
  versions : List VersionRow
  poiRows : List PoiRow
  blockPtr : Option BlockPtr
  cursor : Option String
  entityCount : Int
  dynds : List DynDS
  errors : List SubgraphErrorRec
  earliestBlock : Int
  graftBlock : Option Int
  fatalError : Option ErrorDetail
  health : SubgraphHealth
deriving Repr, DecidableEq

/-- A state with everything empty, used as a base for concrete states. -/
def empty_state : StoreState :=
  { versions := []
    poiRows := []
    blockPtr := none
    cursor := none
    entityCount := 0
    dynds := []
    errors := []
    earliestBlock := 0
    graftBlock := none
    fatalError := none
    health := .healthy }

/-- Embeds `StoreError`, restricted to the variants produced by the embedded
routines. -/
inductive StoreErr where
  | conflictingId (entityType entityId conflictingType : String)
  | constraintViolation (msg : String)
  | canceled
  | unknown (msg : String)
deriving Repr, DecidableEq

/-- The outcome of calling a fallible routine: a Rust panic, an `Err`
return, or an `Ok` return. -/
inductive Outcome (α : Type) where
  | panicked
  | error (e : StoreErr)
  | ok (a : α)
deriving Repr, DecidableEq

/-- Embeds `StoreEvent::from_mods`: the change-notification event built from the
raw modification batch before it is applied, embedded as the list of
changed entity keys. -/
def store_event_from_mods (mods : List EntityModification) : List EntityKey :=
  mods.map EntityModification.entityKey

/-! ## apply_entity_modifications and the transact path -/

/-- The loop body of `apply_entity_modifications`: `Insert` and
`Overwrite` push an `EntityWithSpaceName` onto the mirror batch, `Remove`
is skipped (`continue`). -/
def push_mod (ptr : BlockPtr) (es : List EntityWithSpaceName) :
    EntityModification → List EntityWithSpaceName
  | .insert key data => es ++ [⟨key.entityType, data, ptr.number⟩]
  | .overwrite key data => es ++ [⟨key.entityType, data, ptr.number⟩]
  | .remove _ => es

/-- Embeds `apply_entity_modifications`: iterates over the batch pushing
`Insert`/`Overwrite` data onto `entities` and skipping `Remove`, then
returns `entities.len() as i32`. It performs no write against the
versioned storage (`layout.insert`, `layout.update` and `layout.delete`
are never invoked on this path). -/
def apply_entity_modifications (mods : List EntityModification)
    (ptr : BlockPtr) (entities : List EntityWithSpaceName) :
    List EntityWithSpaceName × Int :=
  let ents := mods.foldl (push_mod ptr) entities
  (ents, (ents.length : Int))

/-- Modelled from the spec: `dynds::insert` persists newly discovered
dynamic data sources, each tagged with `block_to` (spec 4.3 step 5); the
`dynds` module of the repository is not under `src/`. -/
def dynds_insert (st : StoreState) (data_sources : List DynDS)
    (ptr : BlockPtr) : StoreState :=
  { st with
    dynds := st.dynds ++ data_sources.map (fun d => { d with creationBlock := ptr.number }) }

/-- Modelled from the spec: `dynds::remove_offchain` deletes removed
offchain data sources (spec 4.3 step 5); the `dynds` module of the
repository is not under `src/`. -/
def dynds_remove_offchain (st : StoreState)
    (offchain_to_remove : List DynDS) : StoreState :=
  { st with dynds := st.dynds.filter (fun d => decide (d ∉ offchain_to_remove)) }

/-- Modelled from the spec: `deployment::insert_subgraph_errors` persists
deterministic errors recorded for this block (spec 4.3 step 6); the
`deployment` module of the repository is not under `src/`. -/
def insert_subgraph_errors (st : StoreState)
    (deterministic_errors : List SubgraphErrorRec) (block : Int) : StoreState :=
  { st with
    errors := st.errors ++ deterministic_errors.map (fun e => { e with blockNumber := block }) }

/-- Modelled from the spec: `deployment::transact_block` advances the head
pointer, the firehose cursor and the entity count atomically (spec 4.3
step 7); the `deployment` module of the repository is not under `src/`. -/
def deployment_transact_block (st : StoreState) (ptr : BlockPtr)
    (cursor : Option String) (count : Int) : StoreState :=
  { st with
    blockPtr := some ptr
    cursor := cursor
    entityCount := st.entityCount + count }

/-- Embeds `str::parse::<i32>`: an optional sign followed by at least one
digit, with the resulting value within the `i32` range; anything else is a
parse error (and the source unwraps the result, so a parse error there
panics). -/
def parse_i32 (s : String) : Option Int :=
  let signed : Int × List Char :=
    match s.data with
    | '-' :: rest => (-1, rest)
    | '+' :: rest => (1, rest)
    | rest => (1, rest)
  let digits := signed.2
  if digits.isEmpty then none
  else if digits.all (fun ch => decide (48 ≤ ch.toNat ∧ ch.toNat ≤ 57)) then
    let n : Nat := digits.foldl (fun acc ch => acc * 10 + (ch.toNat - 48)) 0
    let v : Int := signed.1 * (n : Int)
    if -2147483648 ≤ v ∧ v ≤ 2147483647 then some v else none
  else none

/-- Embeds the attribute lookup `entity.entity.0.get(k)` on the entity
attribute map. -/
def attr (e : Entity) (k : String) : Option String :=
  e.lookup k

/-- Embeds the panic conditions of one loop iteration of
`EntityWithSpaceName::entity_to_insert_tag_query` (src lines 1759-1791):
a `Poi$` entity is skipped; otherwise `get("operation").unwrap()` panics
when the attribute is missing; when the operation is `"1"`,
`properties_from.get("from_account").unwrap()` and
`properties_to.get("to_account").unwrap()` panic when those attributes are
missing, and `value.parse::<i32>().unwrap()` panics when the collected
value (the `"value"` attribute, or the initial empty string when the
attribute is missing) is not an `i32`. -/
def tag_query_panics (e : EntityWithSpaceName) : Bool :=
  if e.space_name == "Poi$" then false
  else
    match attr e.entity "operation" with
    | none => true
    | some op =>
      if op == "1" then
        (attr e.entity "from_account" == none)
        || (attr e.entity "to_account" == none)
        || (parse_i32 ((attr e.entity "value").getD "") == none)
      else false

/-- Embeds the panic conditions of one loop iteration of
`EntityWithSpaceName::entity_to_insert_edge_queries` (src lines
1811-1852): a `Poi$` entity is skipped; otherwise
`get("operation").unwrap()` panics when the attribute is missing; when the
operation is `"1"`, the `properties.get(..).unwrap()` calls panic when
`from_account`, `to_account` or `value` is missing, and
`value.parse::<i32>().unwrap()` panics when the value is not an `i32`. -/
def edge_query_panics (e : EntityWithSpaceName) : Bool :=
  if e.space_name == "Poi$" then false
  else
    match attr e.entity "operation" with
    | none => true
    | some op =>
      if op == "1" then
        (attr e.entity "from_account" == none)
        || (attr e.entity "to_account" == none)
        || (match attr e.entity "value" with
            | none => true
            | some v => parse_i32 v == none)
      else false

/-- Whether building the mirror queries panics: after the relational
transaction commits, `entity_to_insert_tag_query` and then
`entity_to_insert_edge_queries` run over the whole mirror batch before the
nebula connection is attempted, and any unwrap failure in either pass
panics the call. -/
def mirror_queries_panic (entities : List EntityWithSpaceName) : Bool :=
  entities.any tag_query_panics || entities.any edge_query_panics

/-- The outcomes of the nebula interaction performed after the mirror
queries are built: whether building the connection succeeds, whether
authentication (including obtaining a session id) succeeds, and whether
the tag / edge insert operations succeed. In the source the first two are
unwrapped with `.unwrap()`, while the results of `insert_tags` and
`insert_edges` are discarded. -/
structure NebulaEnv where
  connectOk : Bool
  authOk : Bool
  insertTagsOk : Bool
  insertEdgesOk : Bool
deriving Repr, DecidableEq

/-- The result of `transact_block_operations`: the persistent state after
the call, the entity count forwarded to `deployment::transact_block`, and
the returned value (the pre-built store event on success). -/
structure TransactOutput where
  state : StoreState
  forwardedCount : Int
  result : Outcome (List EntityKey)
deriving Repr, DecidableEq

/-- Embeds `transact_block_operations`: inside one relational transaction it
builds the store event from the raw batch, applies
`apply_entity_modifications` (which only fills the mirror batch and
computes the count), inserts dynamic data sources, removes offchain ones,
persists deterministic errors if any, and calls
`deployment::transact_block` with the count. After the transaction commits
it builds the mirror tag and edge queries from the batch (whose attribute
unwraps panic for any non-`Poi$` write lacking `operation`, or lacking
`from_account`/`to_account`/an `i32` value when the operation is `"1"`),
then connects to the nebula mirror (unwrapping connection, authentication
and session id, so a failure there panics too) and issues the tag and edge
inserts, whose results are discarded. -/
def transact_block_operations (st : StoreState) (block_ptr_to : BlockPtr)
    (firehose_cursor : Option String) (mods : List EntityModification)
    (data_sources : List DynDS) (deterministic_errors : List SubgraphErrorRec)
    (offchain_to_remove : List DynDS) (neb : NebulaEnv) : TransactOutput :=
  let event := store_event_from_mods mods
  let applied := apply_entity_modifications mods block_ptr_to []
  let count := applied.2
  let st1 := dynds_insert st data_sources block_ptr_to
  let st2 := dynds_remove_offchain st1 offchain_to_remove
  let st3 :=
    if deterministic_errors.isEmpty then st2
    else insert_subgraph_errors st2 deterministic_errors block_ptr_to.number
  let st4 := deployment_transact_block st3 block_ptr_to firehose_cursor count
  if mirror_queries_panic applied.1 then
    { state := st4, forwardedCount := count, result := .panicked }
  else if neb.connectOk && neb.authOk then
    { state := st4, forwardedCount := count, result := .ok event }
  else
    { state := st4, forwardedCount := count, result := .panicked }

/-! ## Interface uniqueness check -/

/-- The schema metadata consulted by `check_interface_entity_uniqueness`:
the interfaces implemented by a type, and the types implementing an
interface. -/
structure ApiSchemaInfo where
  interfacesForType : String → List String
  typesForInterface : String → List String

/-- Modelled from the spec: `Layout::conflicting_entity` returns a type
from the given list that currently has a live entity with the given id
(the `relational` module of the repository is not under `src/`); a live
entity is an open version row. -/
def conflicting_entity (versions : List VersionRow) (entity_id : String)
    (types : List String) : Option String :=
  types.find? (fun t =>
    versions.any (fun v => decide (v.key = ⟨t, entity_id⟩ ∧ v.endBlock = none)))

/-- The list bound in `check_interface_entity_uniqueness`: all types that
share an interface implementation with the type of `key`, excluding that
type itself. -/
def shared_interface_types (schema : ApiSchemaInfo) (key : EntityKey) :
    List String :=
  ((schema.interfacesForType key.entityType).flatMap schema.typesForInterface).filter
    (fun t => t != key.entityType)

/-- Embeds `check_interface_entity_uniqueness`: if the entity type shares an
interface with other types and one of those types holds a live entity
with the same id, return `StoreError::ConflictingId`. In the source this
function is reachable only from `insert_entities` and
`overwrite_entities`, which `transact_block_operations` never calls. -/
def check_interface_entity_uniqueness (schema : ApiSchemaInfo)
    (versions : List VersionRow) (key : EntityKey) : Except StoreErr Unit :=
  let types_with_shared_interface := shared_interface_types schema key
  if types_with_shared_interface.isEmpty then .ok ()
  else
    match conflicting_entity versions key.entityId types_with_shared_interface with
    | some conflicting => .error (.conflictingId key.entityType key.entityId conflicting)
    | none => .ok ()

/-! ## Rewind / revert -/

/-- Modelled from the spec: `Layout::revert_block` enforces the temporal
invariant of spec section 3 (the `relational` module of the repository is
not under `src/`): reverting with boundary `block` deletes all versions
with `start >= block` and reopens (`end = infinity`) any version whose
`end == block`. -/
def revert_versions (versions : List VersionRow) (block : Int) :
    List VersionRow :=
  (versions.filter (fun v => decide (v.startBlock < block))).map
    (fun v => if v.endBlock = some block then { v with endBlock := none } else v)

/-- The number of open (live) versions, the recomputed entity count. -/
def open_count (versions : List VersionRow) : Int :=
  ((versions.filter (fun v => decide (v.endBlock = none))).length : Int)

/-- The keys of the versions deleted by a revert with boundary `block`,
the content of the revert store event. -/
def revert_event (versions : List VersionRow) (block : Int) :
    List EntityKey :=
  (versions.filter (fun v => decide (v.startBlock ≥ block))).map (fun v => v.key)

/-- Modelled from the spec: `Layout::revert_metadata` reverts the
metadata-level history recorded as revertible, most importantly dynamic
data source creations, to the same boundary (spec 4.4). -/
def revert_metadata (st : StoreState) (block : Int) : StoreState :=
  { st with dynds := st.dynds.filter (fun d => decide (d.creationBlock < block)) }

/-- The transactional body shared by rewind and revert
(`rewind_with_conn`): refuse to revert past the graft point, compute the
boundary `block_ptr_to.number + 1`, move the head pointer and cursor back
(`deployment::revert_block_ptr`), revert the versioned rows
(`Layout::revert_block`), revert the revertible metadata, and recompute
the entity count. -/
def rewind_with_conn (st : StoreState) (block_ptr_to : BlockPtr)
    (firehose_cursor : Option String) :
    Outcome (StoreState × List EntityKey) :=
  let proceed : Outcome (StoreState × List EntityKey) :=
    let block := block_ptr_to.number + 1
    let st1 := { st with blockPtr := some block_ptr_to, cursor := firehose_cursor }
    let event := revert_event st1.versions block
    let newVersions := revert_versions st1.versions block
    let st2 := { st1 with versions := newVersions }
    let st3 := revert_metadata st2 block
    let st4 := { st3 with entityCount := open_count newVersions }
    .ok (st4, event)
  match st.graftBlock with
  | some graft_block =>
      if graft_block > block_ptr_to.number then
        .error (.unknown "cannot revert past graft point")
      else proceed
  | none => proceed

/-- Embeds `rewind`: looks up the current head pointer (unwrapping, so a missing
pointer panics), performs the sanity check on block numbers — in the
source the `constraint_violation!` value built when
`block_ptr_from.number <= block_ptr_to.number` is constructed and then
discarded, not returned — and then calls `rewind_with_conn` with the
firehose cursor reset to none. -/
def rewind (st : StoreState) (block_ptr_to : BlockPtr) :
    Outcome (StoreState × List EntityKey) :=
  match st.blockPtr with
  | none => .panicked
  | some block_ptr_from =>
      let _sanity :=
        if block_ptr_from.number ≤ block_ptr_to.number then
          some (StoreErr.constraintViolation
            "rewind must go backwards, but would go from block to block")
        else none
      rewind_with_conn st block_ptr_to none

/-- Embeds `revert_block_operations`: same body as rewind, but the confidence
check actually panics (`panic!`) when the target is not strictly before
the head, and the caller-supplied cursor is carried forward. -/
def revert_block_operations (st : StoreState) (block_ptr_to : BlockPtr)
    (firehose_cursor : Option String) :
    Outcome (StoreState × List EntityKey) :=
  match st.blockPtr with
  | none => .panicked
  | some deployment_head =>
      if block_ptr_to.number ≥ deployment_head.number then .panicked
      else rewind_with_conn st block_ptr_to firehose_cursor

/-! ## Prune -/

/-- The cooperative cancellation token: `check_cancel` at checkpoint `k`
observes the flag value at position `k` (missing positions mean "not
cancelled"). -/
def check_cancel (cancel : List Bool) (k : Nat) : Bool :=
  cancel.getD k false

/-- The tail of `prune` after all validations passed: persist the new
`earliest_block` floor in its own sub-transaction, then run
`prune_by_copying` (modelled from the spec: it physically rewrites the
window into compacted storage and observes the cancellation signal between
phases, changing none of the abstract fields; the `relational` module of
the repository is not under `src/`). -/
def prune_run (st : StoreState) (earliest_block : Int) (cancel : List Bool) :
    StoreState × Except StoreErr Unit :=
  if check_cancel cancel 1 then (st, .error .canceled)
  else
    let st1 := { st with earliestBlock := earliest_block }
    if check_cancel cancel 2 then (st1, .error .canceled)
    else if check_cancel cancel 3 then (st1, .error .canceled)
    else (st1, .ok ())

/-- Embeds `prune`: validates in order — (a) if
`state.latest_block.number <= reorg_threshold` return `Ok` without doing
anything; (b) if `state.earliest_block_number > earliest_block` fail with
a constraint violation; (c) `final_block = latest - reorg_threshold` must
exceed `earliest_block`; (d) `earliest_block` must be after the graft
point — and only then persists the new floor and copies. The result pairs
the state after the call with the returned value, because the floor update
commits in its own sub-transaction even when the copy phase is cancelled
afterwards. -/
def prune (st : StoreState) (earliest_block reorg_threshold : Int)
    (cancel : List Bool) : StoreState × Except StoreErr Unit :=
  if check_cancel cancel 0 then (st, .error .canceled)
  else
    match st.blockPtr with
    | none => (st, .error (.unknown "no deployment state"))
    | some latest_block =>
      if latest_block.number ≤ reorg_threshold then (st, .ok ())
      else if st.earliestBlock > earliest_block then
        (st, .error (.constraintViolation "earliest block can not move back"))
      else
        let final_block := latest_block.number - reorg_threshold
        if final_block ≤ earliest_block then
          (st, .error (.constraintViolation
            "the earliest block must be at least reorg_threshold blocks before the latest block"))
        else
          match st.graftBlock with
          | some graft =>
              if graft ≥ earliest_block then
                (st, .error (.constraintViolation
                  "the earliest block must be after the graft point"))
              else prune_run st earliest_block cancel
          | none => prune_run st earliest_block cancel

/-- A sequence of `prune` calls, each taking the state left by the
previous one; the returned values are discarded. -/
def prune_seq (st : StoreState) (calls : List (Int × Int × List Bool)) :
    StoreState :=
  calls.foldl (fun s c => (prune s c.1 c.2.1 c.2.2).1) st

/-! ## Replica router -/

/-- Embeds `ReplicaId`: the main (writable) pool or a read-only replica. -/
inductive ReplicaId where
  | main
  | readOnly (idx : Nat)
deriving Repr, DecidableEq

/-- Embeds `Vec::resize(n, v)`: truncate or pad with `v` to length exactly `n`. -/
def list_resize (xs : List Nat) (n : Nat) (v : Nat) : List Nat :=
  xs.take n ++ List.replicate (n - xs.length) v

/-- The replica assigned to weight index `i` in `DeploymentStore::new`:
index 0 is `Main`, index `i > 0` is `ReadOnly(i - 1)`. -/
def replica_at (i : Nat) : ReplicaId :=
  if i = 0 then .main else .readOnly (i - 1)

/-- The replica list built in `DeploymentStore::new` before the shuffle:
`pool_weights` is resized to `read_only_pools.len() + 1` with missing
weights defaulting to 1, and each replica is repeated `weight` times. The
source then shuffles this list once; the shuffle is an arbitrary
permutation of this list. -/
def build_replica_order (pool_weights : List Nat) (num_read_only : Nat) :
    List ReplicaId :=
  (((list_resize pool_weights (num_read_only + 1) 1).enum).map
    (fun p => List.replicate p.2 (replica_at p.1))).flatten

/-- Embeds `replica_for_query`: subscriptions always use `Main`; otherwise the
atomic round-robin counter is advanced by one (`fetch_add`) and the
replica at position `counter % replica_order.len()` is returned. With an
empty replica list the modulo and the `unwrap` panic. -/
def replica_for_query (replica_order : List ReplicaId) (counter : Nat)
    (for_subscription : Bool) : Outcome (ReplicaId × Nat) :=
  match for_subscription with
  | false =>
      let weights_count := replica_order.length
      if h : weights_count = 0 then .panicked
      else
        .ok (replica_order.get
              ⟨counter % weights_count, Nat.mod_lt counter (Nat.pos_of_ne_zero h)⟩,
            counter + 1)
  | true => .ok (.main, counter)

/-! ## Proof of indexing -/

/-- The proof-of-indexing algorithm generation. -/
inductive PoiVersion where
  | legacy
  | fast
deriving Repr, DecidableEq

/-- Modelled from the spec: the output of `ProofOfIndexingFinisher` (which
lives in the external `graph` crate) combines the per-causality-region
digests with the block, the deployment identity and the indexer identity,
using the cached algorithm version (spec 4.7). -/
structure PoiDigest where
  block : BlockPtr
  deployment : String
  indexer : Option (List Nat)
  version : PoiVersion
  regions : List (String × List Nat)
deriving Repr, DecidableEq

/-- Whether a proof-of-indexing row is valid at block `n`. -/
def poi_valid_at (r : PoiRow) (n : Int) : Bool :=
  decide (r.startBlock ≤ n) &&
    (match r.endBlock with
     | none => true
     | some e => decide (n < e))

/-- Embeds `get_proof_of_indexing`: returns `None` when the layout does not
support proof of indexing; resolves the current head and returns `None`
when there is no head or when `latest_block_ptr.number < block.number` (a
number-only comparison — the hashes are never consulted, a limitation the
source itself flags); otherwise queries the digest-carrier entities valid
at the block and combines them with the finisher. -/
def get_proof_of_indexing (st : StoreState) (supports_poi : Bool)
    (deployment : String) (indexer : Option (List Nat))
    (poi_version : PoiVersion) (block : BlockPtr) :
    Outcome (Option PoiDigest) :=
  if supports_poi = false then .ok none
  else
    match st.blockPtr with
    | none => .ok none
    | some latest_block_ptr =>
      if latest_block_ptr.number < block.number then .ok none
      else
        let entities := st.poiRows.filter (fun r => poi_valid_at r block.number)
        .ok (some
          { block := block
            deployment := deployment
            indexer := indexer
            version := poi_version
            regions := entities.map (fun r => (r.region, r.digest)) })

/-! ## Graft copy (start_subgraph) -/

/-- The copy source: the source deployment data addressed by `graft_src`. -/
structure SourceDeployment where
  versions : List VersionRow
  dynds : List DynDS
  errors : List SubgraphErrorRec
deriving Repr, DecidableEq

/-- The largest `i32`; block numbers are `i32` in the source and
`start_subgraph` computes `block.number.checked_add(1)`, panicking via
`expect` when it would overflow. -/
def i32_max : Int := 2147483647

/-- Embeds the `copy::Connection::copy_data` status. -/
inductive CopyStatus where
  | finished
  | cancelled
deriving Repr, DecidableEq

/-- The steps of the graft transaction in `start_subgraph`, in source
order: copy shared dynamic data sources (modelled from the spec:
`dynds::shared::copy` with identifier remapping), copy historical errors
(`deployment::copy_errors`), copy auxiliary classification metadata
(`catalog::copy_account_like`, which touches only catalog metadata),
revert the freshly copied data with boundary `block.number + 1`
(`revert_block`), recompute the entity count (`set_entity_count`), run
`ANALYZE` on every table (storage maintenance only), and finally set the
block pointer to the graft block (`deployment::forward_block_ptr`). -/
def graft_steps (src : SourceDeployment) (block : BlockPtr) :
    List (StoreState → StoreState) :=
  [ fun st => { st with dynds := st.dynds ++ src.dynds },
    fun st => { st with errors := st.errors ++ src.errors },
    fun st => st,
    fun st => { st with versions := revert_versions st.versions (block.number + 1) },
    fun st => { st with entityCount := open_count st.versions },
    fun st => st,
    fun st => { st with blockPtr := some block } ]

/-- Run a list of transaction steps in order. -/
def run_steps (steps : List (StoreState → StoreState)) (st : StoreState) :
    StoreState :=
  steps.foldl (fun s f => f s) st

/-- Modelled from the spec: `deployment::initialize_block_ptr` sets the
block pointer of a newly deployed subgraph to its start block when no
pointer is set yet, and leaves an already-set pointer alone (the
`deployment` module of the repository is not under `src/`). -/
def init_block_ptr (st : StoreState) (start_ptr : Option BlockPtr) :
    StoreState :=
  match st.blockPtr with
  | some _ => st
  | none => { st with blockPtr := start_ptr }

/-- Embeds `start_subgraph`: with a graft source, first `copy_data` copies the
source data wholesale (modelled from the spec; a cancellation yields
`StoreError::Canceled`), then one transaction runs the graft steps — the
boundary for the revert is `block.number + 1`, computed with
`checked_add`, so a block number at `i32::MAX` panics — and finally
`initialize_block_ptr` runs in a separate transaction. -/
def start_subgraph (st : StoreState)
    (graft_src : Option (SourceDeployment × BlockPtr))
    (copy_status : CopyStatus) (start_ptr : Option BlockPtr) :
    Outcome StoreState :=
  match graft_src with
  | some (src, block) =>
    match copy_status with
    | .cancelled => .error .canceled
    | .finished =>
      if block.number + 1 > i32_max then .panicked
      else
        let st1 := { st with versions := src.versions }
        let st2 := run_steps (graft_steps src block) st1
        .ok (init_block_ptr st2 start_ptr)
  | none => .ok (init_block_ptr st start_ptr)

/-! ## Failure recovery -/

/-- Embeds `UnfailOutcome`. -/
inductive UnfailOutcome where
  | noop
  | unfailed
deriving Repr, DecidableEq

/-- Embeds `unfail_non_deterministic_error`: no-op when there is no fatal error
(`ErrorDetail::fatal` finds nothing) or when the fatal error is
deterministic; when the error block range starts at an included bound
`error_block_number` and `current_ptr.number >= error_block_number`, mark
the deployment healthy (`update_deployment_status`) and delete the fatal
error (`delete_error`, both modelled from the spec since the `deployment`
module of the repository is not under `src/`), returning `Unfailed`;
otherwise no-op. -/
def unfail_non_deterministic_error (st : StoreState) (current_ptr : BlockPtr) :
    StoreState × UnfailOutcome :=
  match st.fatalError with
  | none => (st, .noop)
  | some subgraph_error =>
    if subgraph_error.deterministic then (st, .noop)
    else
      match subgraph_error.blockRangeLower with
      | .included error_block_number =>
        if current_ptr.number ≥ error_block_number then
          ({ st with health := .healthy, fatalError := none }, .unfailed)
        else (st, .noop)
      | _ => (st, .noop)

/-! ## Theorems -/

/-- The length of the mirror batch after the `apply_entity_modifications`
loop: the initial length plus one entry per `Insert` or `Overwrite`. -/
theorem foldl_push_mod_length (ptr : BlockPtr) :
    ∀ (mods : List EntityModification) (entities : List EntityWithSpaceName),
    (mods.foldl (push_mod ptr) entities).length
      = entities.length + (mods.filter EntityModification.isWrite).length := by
  intro mods
  induction mods with
  | nil => intro entities; simp
  | cons m mods ih =>
    intro entities
    cases m <;>
      simp [push_mod, EntityModification.isWrite, ih, List.filter_cons] <;>
      omega

/-- C10: for every batch passed to `transact_block_operations`, the entity
count forwarded to `deployment::transact_block` equals the number of
`Insert` plus `Overwrite` modifications in the batch; `Remove`
modifications are skipped by the loop and never decrease the count. -/
theorem c10_forwarded_count_is_writes :
    ∀ (st : StoreState) (block_ptr_to : BlockPtr) (firehose_cursor : Option String)
      (mods : List EntityModification) (data_sources : List DynDS)
      (deterministic_errors : List SubgraphErrorRec)
      (offchain_to_remove : List DynDS) (neb : NebulaEnv),
    (transact_block_operations st block_ptr_to firehose_cursor mods data_sources
        deterministic_errors offchain_to_remove neb).forwardedCount
      = ((mods.filter EntityModification.isWrite).length : Int) := by
  intro st p c mods ds errs off neb
  unfold transact_block_operations apply_entity_modifications
  dsimp only
  repeat' split
  all_goals simp [foldl_push_mod_length]

/-- C1 (amended): `transact_block_operations` leaves the versioned entity
rows untouched — `apply_entity_modifications` only fills the mirror batch
and never writes an insert, overwrite or removal to the versioned
storage. -/
theorem c1_amended_versions_untouched :
    ∀ (st : StoreState) (block_ptr_to : BlockPtr) (firehose_cursor : Option String)
      (mods : List EntityModification) (data_sources : List DynDS)
      (deterministic_errors : List SubgraphErrorRec)
      (offchain_to_remove : List DynDS) (neb : NebulaEnv),
    (transact_block_operations st block_ptr_to firehose_cursor mods data_sources
        deterministic_errors offchain_to_remove neb).state.versions
      = st.versions := by
  intro st p c mods ds errs off neb
  unfold transact_block_operations deployment_transact_block dynds_insert
    dynds_remove_offchain insert_subgraph_errors
  dsimp only
  repeat' split
  all_goals rfl

/-- C1 counterexample: a batch holding one `Remove` of key
`("Account", "A")`, whose current version is open, is transacted
successfully, yet afterwards that open version is still present — the
removed key keeps an open version, contradicting the claim. -/
theorem c1_counterexample_remove_leaves_open_version :
    (transact_block_operations
        { empty_state with
            versions := [⟨⟨"Account", "A"⟩, 0, none⟩]
            blockPtr := some ⟨1, [0]⟩ }
        ⟨2, [1]⟩ none [.remove ⟨"Account", "A"⟩] [] [] []
        ⟨true, true, true, true⟩).result
      = .ok [⟨"Account", "A"⟩]
    ∧ (⟨⟨"Account", "A"⟩, 0, none⟩ : VersionRow) ∈
      (transact_block_operations
        { empty_state with
            versions := [⟨⟨"Account", "A"⟩, 0, none⟩]
            blockPtr := some ⟨1, [0]⟩ }
        ⟨2, [1]⟩ none [.remove ⟨"Account", "A"⟩] [] [] []
        ⟨true, true, true, true⟩).state.versions := by
  decide

/-- C4 (amended): the mirror phase never changes the committed state (no
mirror outcome whatsoever — query-building panic, connection,
authentication or insert failure — rolls back or alters the committed
transaction), and the outcomes of the mirror tag and edge inserts are
discarded, so when building the mirror queries does not panic and the
connection and authentication succeed, the call returns the pre-built
store event no matter whether the inserts succeed or fail. The call
panics after the commit, instead of returning the event, when a
query-building unwrap fails or when the connection or authentication
fails. -/
theorem c4_amended_mirror_never_rolls_back :
    ∀ (st : StoreState) (block_ptr_to : BlockPtr) (firehose_cursor : Option String)
      (mods : List EntityModification) (data_sources : List DynDS)
      (deterministic_errors : List SubgraphErrorRec)
      (offchain_to_remove : List DynDS) (insertTagsOk insertEdgesOk : Bool)
      (neb1 neb2 : NebulaEnv),
    (mirror_queries_panic (apply_entity_modifications mods block_ptr_to []).1 = false →
      (transact_block_operations st block_ptr_to firehose_cursor mods data_sources
          deterministic_errors offchain_to_remove
          ⟨true, true, insertTagsOk, insertEdgesOk⟩).result
        = .ok (store_event_from_mods mods))
    ∧ (transact_block_operations st block_ptr_to firehose_cursor mods data_sources
        deterministic_errors offchain_to_remove neb1).state
      = (transact_block_operations st block_ptr_to firehose_cursor mods data_sources
        deterministic_errors offchain_to_remove neb2).state := by
  intro st p c mods ds errs off tOk eOk neb1 neb2
  constructor
  · intro hq
    unfold transact_block_operations
    dsimp only
    repeat' split
    all_goals simp_all
  · unfold transact_block_operations
    dsimp only
    repeat' split
    all_goals rfl

/-- C4 witness: a committed `TokenTransfer` write with operation `"1"`,
both accounts and an `i32` value builds its mirror queries without
panicking, and even with both mirror inserts failing the call returns the
pre-built store event. -/
theorem c4_amended_witness :
    mirror_queries_panic
        (apply_entity_modifications
          [.insert ⟨"TokenTransfer", "t1"⟩
            [("operation", "1"), ("from_account", "a"), ("to_account", "b"),
              ("value", "5")]]
          ⟨2, [1]⟩ []).1
      = false
    ∧ (transact_block_operations { empty_state with blockPtr := some ⟨1, [0]⟩ }
        ⟨2, [1]⟩ none
        [.insert ⟨"TokenTransfer", "t1"⟩
          [("operation", "1"), ("from_account", "a"), ("to_account", "b"),
            ("value", "5")]]
        [] [] [] ⟨true, true, false, false⟩).result
      = .ok [⟨"TokenTransfer", "t1"⟩] :=
  ⟨by decide,
    (c4_amended_mirror_never_rolls_back
        { empty_state with blockPtr := some ⟨1, [0]⟩ } ⟨2, [1]⟩ none
        [.insert ⟨"TokenTransfer", "t1"⟩
          [("operation", "1"), ("from_account", "a"), ("to_account", "b"),
            ("value", "5")]]
        [] [] [] false false ⟨true, true, false, false⟩
        ⟨true, true, false, false⟩).1 (by decide)⟩

/-- C4 counterexample: two committed batches for which the call does not
return the pre-built store event. First, an insert whose entity lacks the
`operation` attribute: building the mirror tag queries panics at
`get("operation").unwrap()` after the commit, before the connection is
even attempted. Second, a batch whose queries build fine but whose mirror
connection fails: the connection unwrap panics. In both cases the head
pointer has advanced — the commit stands — yet the event is not
returned. -/
theorem c4_counterexample_post_commit_panics :
    (transact_block_operations { empty_state with blockPtr := some ⟨1, [0]⟩ }
        ⟨2, [1]⟩ none [.insert ⟨"T", "x"⟩ []] [] [] []
        ⟨true, true, true, true⟩).result
      = .panicked
    ∧ (transact_block_operations { empty_state with blockPtr := some ⟨1, [0]⟩ }
        ⟨2, [1]⟩ none [.insert ⟨"T", "x"⟩ []] [] [] []
        ⟨true, true, true, true⟩).state.blockPtr
      = some ⟨2, [1]⟩
    ∧ (transact_block_operations { empty_state with blockPtr := some ⟨1, [0]⟩ }
        ⟨2, [1]⟩ none [.insert ⟨"T", "x"⟩ [("operation", "0")]] [] [] []
        ⟨false, true, true, true⟩).result
      = .panicked
    ∧ (transact_block_operations { empty_state with blockPtr := some ⟨1, [0]⟩ }
        ⟨2, [1]⟩ none [.insert ⟨"T", "x"⟩ [("operation", "0")]] [] [] []
        ⟨false, true, true, true⟩).state.blockPtr
      = some ⟨2, [1]⟩ := by
  decide

/-- C2 (amended): when the entity type shares a GraphQL interface with a
sibling type and a live entity of a sibling type holds the same
identifier, `check_interface_entity_uniqueness` does report
`ConflictingId` — but `transact_block_operations` never invokes it (the
check is reachable only from the unused `insert_entities` and
`overwrite_entities` helpers): the batch is committed regardless of the
conflict (the head pointer advances whatever the mirror phase does), and
when the post-commit mirror phase does not panic the call returns the
event instead of aborting. -/
theorem c2_amended_check_unreachable_from_transact :
    ∀ (schema : ApiSchemaInfo) (st : StoreState) (key : EntityKey)
      (conflicting : String) (block_ptr_to : BlockPtr)
      (firehose_cursor : Option String) (mods : List EntityModification)
      (data_sources : List DynDS) (deterministic_errors : List SubgraphErrorRec)
      (offchain_to_remove : List DynDS) (insertTagsOk insertEdgesOk : Bool)
      (neb : NebulaEnv),
    conflicting_entity st.versions key.entityId (shared_interface_types schema key)
        = some conflicting →
    mirror_queries_panic (apply_entity_modifications mods block_ptr_to []).1 = false →
    check_interface_entity_uniqueness schema st.versions key
        = .error (.conflictingId key.entityType key.entityId conflicting)
    ∧ (transact_block_operations st block_ptr_to firehose_cursor mods data_sources
        deterministic_errors offchain_to_remove
        ⟨true, true, insertTagsOk, insertEdgesOk⟩).result
      = .ok (store_event_from_mods mods)
    ∧ (transact_block_operations st block_ptr_to firehose_cursor mods data_sources
        deterministic_errors offchain_to_remove neb).state.blockPtr
      = some block_ptr_to := by
  intro schema st key conflicting p c mods ds errs off tOk eOk neb hconf hq
  refine ⟨?_, ?_, ?_⟩
  · have hne : shared_interface_types schema key ≠ [] := by
      intro h
      rw [h] at hconf
      simp [conflicting_entity] at hconf
    unfold check_interface_entity_uniqueness
    rw [if_neg (by simpa [List.isEmpty_iff] using hne), hconf]
  · unfold transact_block_operations
    dsimp only
    repeat' split
    all_goals simp_all
  · unfold transact_block_operations deployment_transact_block
    dsimp only
    repeat' split
    all_goals rfl

/-- A schema in which `Dog` and `Cat` both implement the interface
`Pet`. -/
def pet_schema : ApiSchemaInfo :=
  { interfacesForType := fun t => if t = "Dog" ∨ t = "Cat" then ["Pet"] else []
    typesForInterface := fun i => if i = "Pet" then ["Dog", "Cat"] else [] }

/-- C2 witness: in the `Pet` schema with a live `Cat "Fred"`, the
uniqueness check on key `("Dog", "Fred")` reports the conflict, yet a
batch inserting `Dog "Fred"` (with a benign `operation` attribute, so the
post-commit mirror phase does not panic) is transacted and returns the
event. -/
theorem c2_amended_witness :
    conflicting_entity [⟨⟨"Cat", "Fred"⟩, 0, none⟩] "Fred"
        (shared_interface_types pet_schema ⟨"Dog", "Fred"⟩)
      = some "Cat"
    ∧ mirror_queries_panic
        (apply_entity_modifications
          [.insert ⟨"Dog", "Fred"⟩ [("operation", "0")]] ⟨2, [1]⟩ []).1
      = false
    ∧ check_interface_entity_uniqueness pet_schema
        [⟨⟨"Cat", "Fred"⟩, 0, none⟩] ⟨"Dog", "Fred"⟩
      = .error (.conflictingId "Dog" "Fred" "Cat")
    ∧ (transact_block_operations
        { empty_state with versions := [⟨⟨"Cat", "Fred"⟩, 0, none⟩] }
        ⟨2, [1]⟩ none [.insert ⟨"Dog", "Fred"⟩ [("operation", "0")]] [] [] []
        ⟨true, true, true, true⟩).result
      = .ok [⟨"Dog", "Fred"⟩] :=
  ⟨by decide, by decide,
    (c2_amended_check_unreachable_from_transact pet_schema
      { empty_state with versions := [⟨⟨"Cat", "Fred"⟩, 0, none⟩] }
      ⟨"Dog", "Fred"⟩ "Cat" ⟨2, [1]⟩ none
      [.insert ⟨"Dog", "Fred"⟩ [("operation", "0")]] [] [] [] true true
      ⟨true, true, true, true⟩ (by decide) (by decide)).1,
    (c2_amended_check_unreachable_from_transact pet_schema
      { empty_state with versions := [⟨⟨"Cat", "Fred"⟩, 0, none⟩] }
      ⟨"Dog", "Fred"⟩ "Cat" ⟨2, [1]⟩ none
      [.insert ⟨"Dog", "Fred"⟩ [("operation", "0")]] [] [] [] true true
      ⟨true, true, true, true⟩ (by decide) (by decide)).2.1⟩

/-- C2 counterexample: with a live `Cat "Fred"` and a batch inserting
`Dog "Fred"` (carrying a benign `operation = "0"` attribute, so the
post-commit mirror phase builds no queries and does not panic) — exactly
the conflict the uniqueness check exists for —
`transact_block_operations` succeeds, commits (the head pointer advances)
and returns the event instead of aborting with `ConflictingId`. -/
theorem c2_counterexample_transact_ignores_conflict :
    check_interface_entity_uniqueness pet_schema
        [⟨⟨"Cat", "Fred"⟩, 0, none⟩] ⟨"Dog", "Fred"⟩
      = .error (.conflictingId "Dog" "Fred" "Cat")
    ∧ (transact_block_operations
        { empty_state with
            versions := [⟨⟨"Cat", "Fred"⟩, 0, none⟩]
            blockPtr := some ⟨1, [0]⟩ }
        ⟨2, [1]⟩ none [.insert ⟨"Dog", "Fred"⟩ [("operation", "0")]] [] [] []
        ⟨true, true, true, true⟩).result
      = .ok [⟨"Dog", "Fred"⟩]
    ∧ (transact_block_operations
        { empty_state with
            versions := [⟨⟨"Cat", "Fred"⟩, 0, none⟩]
            blockPtr := some ⟨1, [0]⟩ }
        ⟨2, [1]⟩ none [.insert ⟨"Dog", "Fred"⟩ [("operation", "0")]] [] [] []
        ⟨true, true, true, true⟩).state.blockPtr
      = some ⟨2, [1]⟩ := by
  decide

/-- C3: with the head at block 5, `rewind` to block 7 — a forward move the
claim says must fail with a constraint violation and change nothing — in
fact proceeds: the `constraint_violation!` value is constructed and
discarded, and the call returns `Ok`, moving the head pointer forward to
block 7 and resetting the cursor. -/
theorem c3_rewind_forward_proceeds :
    rewind { empty_state with blockPtr := some ⟨5, [0]⟩, cursor := some "cur" }
        ⟨7, [1]⟩
      = .ok
        ({ empty_state with blockPtr := some ⟨7, [1]⟩, cursor := none }, [])
    ∧ ({ empty_state with blockPtr := some ⟨7, [1]⟩, cursor := none } : StoreState)
      ≠ { empty_state with blockPtr := some ⟨5, [0]⟩, cursor := some "cur" } := by
  decide

/-- One `prune` call never lowers the persisted earliest-block floor: it
either leaves it unchanged (no-op, validation failure, cancellation) or
raises it to the requested `earliest_block`, which validation has checked
to be at least the current floor. -/
theorem prune_floor_mono (st : StoreState) (earliest_block reorg_threshold : Int)
    (cancel : List Bool) :
    st.earliestBlock ≤ (prune st earliest_block reorg_threshold cancel).1.earliestBlock := by
  unfold prune prune_run
  dsimp only
  repeat' split
  all_goals simp_all

/-- C5 (amended): a `prune` call that reaches the validation phase
(`latest_block.number > reorg_threshold`, not cancelled beforehand) with
`earliest_block` strictly below the persisted floor fails with a
constraint violation and changes nothing; and across any sequence of
`prune` calls the persisted floor is non-decreasing. -/
theorem c5_amended_floor_check_and_monotone :
    ∀ (st : StoreState) (latest_block : BlockPtr) (earliest_block reorg_threshold : Int)
      (cancel : List Bool) (calls : List (Int × Int × List Bool)),
    (st.blockPtr = some latest_block →
      check_cancel cancel 0 = false →
      reorg_threshold < latest_block.number →
      earliest_block < st.earliestBlock →
      prune st earliest_block reorg_threshold cancel
        = (st, .error (.constraintViolation "earliest block can not move back")))
    ∧ st.earliestBlock ≤ (prune st earliest_block reorg_threshold cancel).1.earliestBlock
    ∧ st.earliestBlock ≤ (prune_seq st calls).earliestBlock := by
  intro st latest e r cancel calls
  refine ⟨?_, prune_floor_mono st e r cancel, ?_⟩
  · intro hptr hc hr hfloor
    unfold prune
    rw [hc, hptr]
    simp only [Bool.false_eq_true, if_false]
    rw [if_neg (by omega), if_pos (by omega)]
  · induction calls generalizing st with
    | nil => exact le_refl _
    | cons call calls ih =>
      calc st.earliestBlock
          ≤ (prune st call.1 call.2.1 call.2.2).1.earliestBlock :=
            prune_floor_mono st call.1 call.2.1 call.2.2
        _ ≤ (prune_seq (prune st call.1 call.2.1 call.2.2).1 calls).earliestBlock :=
            ih _
        _ = (prune_seq st (call :: calls)).earliestBlock := rfl

/-- C5 witness: floor 60, head at block 100, reorg threshold 10, request
50: the call fails with the constraint violation and leaves the state
unchanged. -/
theorem c5_amended_witness :
    ({ empty_state with blockPtr := some ⟨100, [0]⟩, earliestBlock := 60 }
        : StoreState).blockPtr = some ⟨100, [0]⟩
    ∧ prune { empty_state with blockPtr := some ⟨100, [0]⟩, earliestBlock := 60 }
        50 10 []
      = ({ empty_state with blockPtr := some ⟨100, [0]⟩, earliestBlock := 60 },
        .error (.constraintViolation "earliest block can not move back")) :=
  ⟨by decide,
    (c5_amended_floor_check_and_monotone
        { empty_state with blockPtr := some ⟨100, [0]⟩, earliestBlock := 60 }
        ⟨100, [0]⟩ 50 10 [] []).1
      (by decide) (by decide) (by decide) (by decide)⟩

/-- C5 counterexample: with the head at block 5 and reorg threshold 10,
the reorg no-op gate fires first: a request with `earliest_block = 50`
strictly below the floor 60 returns `Ok` (doing nothing) instead of
failing with a constraint violation, contradicting the claim as stated. -/
theorem c5_counterexample_noop_gate_first :
    prune { empty_state with blockPtr := some ⟨5, [0]⟩, earliestBlock := 60 }
        50 10 []
      = ({ empty_state with blockPtr := some ⟨5, [0]⟩, earliestBlock := 60 }, .ok ())
    ∧ (50 : Int)
      < ({ empty_state with blockPtr := some ⟨5, [0]⟩, earliestBlock := 60 }
          : StoreState).earliestBlock := by
  decide

/-- The index-to-replica assignment of the weight list is injective. -/
theorem replica_at_inj : ∀ i j, replica_at i = replica_at j → i = j := by
  intro i j h
  cases i with
  | zero =>
    cases j with
    | zero => rfl
    | succ j => simp [replica_at] at h
  | succ i =>
    cases j with
    | zero => simp [replica_at] at h
    | succ j =>
      simp only [replica_at, Nat.succ_ne_zero, if_false, ReplicaId.readOnly.injEq] at h
      omega

/-- Replicas assigned to indices below `k` never occur in the flattened
weighted list built from `enumFrom k`. -/
theorem count_replica_below (ws : List Nat) :
    ∀ (k m : Nat), m < k →
    ((((ws.enumFrom k).map (fun p => List.replicate p.2 (replica_at p.1))).flatten).count
        (replica_at m)) = 0 := by
  induction ws with
  | nil => intro k m _; rfl
  | cons w ws ih =>
    intro k m hm
    simp only [List.enumFrom, List.map_cons, List.flatten_cons, List.count_append]
    rw [List.count_replicate, if_neg, ih (k + 1) m (by omega)]
    intro h
    have h2 := replica_at_inj k m (by simpa using h)
    omega

/-- In the flattened weighted list built from `enumFrom k`, the replica
assigned to index `k + i` occurs exactly `ws[i]` times (0 when `i` is out
of range). -/
theorem count_replica_weight (ws : List Nat) :
    ∀ (k i : Nat),
    ((((ws.enumFrom k).map (fun p => List.replicate p.2 (replica_at p.1))).flatten).count
        (replica_at (k + i))) = ws.getD i 0 := by
  induction ws with
  | nil => intro k i; simp
  | cons w ws ih =>
    intro k i
    simp only [List.enumFrom, List.map_cons, List.flatten_cons, List.count_append]
    cases i with
    | zero =>
      rw [Nat.add_zero, List.count_replicate, if_pos (by simp),
        count_replica_below ws (k + 1) k (by omega)]
      rfl
    | succ i =>
      rw [List.count_replicate, if_neg]
      · have hki : k + (i + 1) = (k + 1) + i := by omega
        rw [hki, ih (k + 1) i]
        simp
      · intro h
        have h2 := replica_at_inj k (k + (i + 1)) (by simpa using h)
        omega

/-- C6: `replica_for_query` with `for_subscription = true` always yields
`Main` (without advancing the counter); with `for_subscription = false` it
yields the entry of the replica list at index `counter % length` and
advances the counter by one; it never returns an error; and the list built
at startup repeats the replica of every weight index exactly `weight`
times, with the weight vector resized to `read_only_pools.len() + 1` and
missing weights defaulting to 1 (the startup shuffle only permutes this
list). -/
theorem c6_replica_for_query :
    ∀ (pool_weights : List Nat) (num_read_only : Nat)
      (replica_order : List ReplicaId) (counter : Nat),
    replica_for_query replica_order counter true = .ok (.main, counter)
    ∧ (∀ h : 0 < replica_order.length,
        replica_for_query replica_order counter false
          = .ok (replica_order.get ⟨counter % replica_order.length, Nat.mod_lt counter h⟩,
              counter + 1))
    ∧ (∀ (b : Bool) (e : StoreErr), replica_for_query replica_order counter b ≠ .error e)
    ∧ (∀ i, (build_replica_order pool_weights num_read_only).count (replica_at i)
        = (list_resize pool_weights (num_read_only + 1) 1).getD i 0) := by
  intro ws n order counter
  refine ⟨rfl, ?_, ?_, ?_⟩
  · intro h
    have h0 : order.length ≠ 0 := Nat.pos_iff_ne_zero.mp h
    simp [replica_for_query, h0]
  · intro b e
    cases b <;> unfold replica_for_query <;> simp only
    · split <;> simp
    · simp
  · intro i
    have := count_replica_weight (list_resize ws (n + 1) 1) 0 i
    simpa [build_replica_order, List.enum] using this

/-- C6 witness: weights `[2, 1]` with one read-only pool give the list
`[Main, Main, ReadOnly 0]`; call number 5 (counter 5) selects index
`5 % 3 = 2`, the read-only replica, and advances the counter to 6. -/
theorem c6_replica_for_query_witness :
    0 < (build_replica_order [2, 1] 1).length
    ∧ replica_for_query (build_replica_order [2, 1] 1) 5 false
      = .ok (.readOnly 0, 6) :=
  ⟨by decide,
    (c6_replica_for_query [2, 1] 1 (build_replica_order [2, 1] 1) 5).2.1 (by decide)⟩

/-- C7: for a deployment whose layout supports proof of indexing and whose
head pointer exists, `get_proof_of_indexing` returns `None` whenever the
head block number is strictly below the requested block number. The head
and requested hashes are arbitrary in this statement: the decision reads
block numbers only. -/
theorem c7_poi_none_for_future_block :
    ∀ (st : StoreState) (head block : BlockPtr) (deployment : String)
      (indexer : Option (List Nat)) (poi_version : PoiVersion),
    st.blockPtr = some head →
    head.number < block.number →
    get_proof_of_indexing st true deployment indexer poi_version block = .ok none := by
  intro st head block d i v hptr hlt
  unfold get_proof_of_indexing
  rw [if_neg (by simp), hptr]
  dsimp only
  rw [if_pos hlt]

/-- C7 witness: head at block 10, request for block 11 (with differing
hashes): the result is `None`. -/
theorem c7_poi_none_witness :
    ({ empty_state with blockPtr := some ⟨10, [7]⟩ } : StoreState).blockPtr
      = some ⟨10, [7]⟩
    ∧ get_proof_of_indexing { empty_state with blockPtr := some ⟨10, [7]⟩ }
        true "Qm" none .fast ⟨11, [9]⟩
      = .ok none :=
  ⟨by decide,
    c7_poi_none_for_future_block { empty_state with blockPtr := some ⟨10, [7]⟩ }
      ⟨10, [7]⟩ ⟨11, [9]⟩ "Qm" none .fast (by decide) (by decide)⟩

/-- C8: in the graft path of `start_subgraph`, every proper prefix of the
graft transaction leaves the destination head pointer untouched, and the
completed transaction — whose final step is `forward_block_ptr` — sets it
to the graft block; the freshly copied data is reverted with boundary
`target_block.number + 1`, so versions starting after the graft point are
discarded and versions clamped at `target_block + 1` are reopened. -/
theorem c8_graft_revert_and_final_ptr :
    ∀ (st : StoreState) (src : SourceDeployment) (block : BlockPtr),
    block.number + 1 ≤ i32_max →
    (∀ k, k < (graft_steps src block).length →
      (run_steps ((graft_steps src block).take k)
          { st with versions := src.versions }).blockPtr
        = st.blockPtr)
    ∧ ∃ st2, start_subgraph st (some (src, block)) .finished none = .ok st2
        ∧ st2.blockPtr = some block
        ∧ st2.versions = revert_versions src.versions (block.number + 1) := by
  intro st src block hle
  constructor
  · intro k hk
    have h7 : (graft_steps src block).length = 7 := rfl
    rw [h7] at hk
    interval_cases k <;> rfl
  · refine ⟨run_steps (graft_steps src block) { st with versions := src.versions },
      ?_, rfl, rfl⟩
    unfold start_subgraph
    dsimp only
    rw [if_neg (show ¬ block.number + 1 > i32_max by omega)]
    rfl

/-- C8 witness: grafting at block 2 from a source whose versions include a
row clamped at block 3 and a row starting at block 5: the copied data is
reverted to boundary 3 — the clamped row is reopened, the future row is
dropped — and the head pointer ends at block 2. -/
theorem c8_graft_witness :
    ((⟨2, [4]⟩ : BlockPtr).number + 1 ≤ i32_max)
    ∧ ∃ st2,
      start_subgraph empty_state
          (some (⟨[⟨⟨"T", "a"⟩, 0, some 3⟩, ⟨⟨"T", "b"⟩, 5, none⟩], [], []⟩,
            ⟨2, [4]⟩))
          .finished none
        = .ok st2
      ∧ st2.blockPtr = some ⟨2, [4]⟩
      ∧ st2.versions
        = revert_versions [⟨⟨"T", "a"⟩, 0, some 3⟩, ⟨⟨"T", "b"⟩, 5, none⟩] 3 :=
  ⟨by decide,
    (c8_graft_revert_and_final_ptr empty_state
      ⟨[⟨⟨"T", "a"⟩, 0, some 3⟩, ⟨⟨"T", "b"⟩, 5, none⟩], [], []⟩
      ⟨2, [4]⟩ (by decide)).2⟩

/-- C9: `unfail_non_deterministic_error` is a no-op when no fatal error is
recorded or when the recorded fatal error is deterministic; when the fatal
error is non-deterministic with recorded block number `n`, a head at or
past `n` flips health to `Healthy`, deletes the fatal error and returns
`Unfailed`, while a head before `n` is a no-op that changes nothing. -/
theorem c9_unfail_non_deterministic :
    ∀ (st : StoreState) (current_ptr : BlockPtr),
    (st.fatalError = none →
      unfail_non_deterministic_error st current_ptr = (st, .noop))
    ∧ (∀ err, st.fatalError = some err → err.deterministic = true →
        unfail_non_deterministic_error st current_ptr = (st, .noop))
    ∧ (∀ err n, st.fatalError = some err → err.deterministic = false →
        err.blockRangeLower = .included n →
        (n ≤ current_ptr.number →
          unfail_non_deterministic_error st current_ptr
            = ({ st with health := .healthy, fatalError := none }, .unfailed))
        ∧ (current_ptr.number < n →
          unfail_non_deterministic_error st current_ptr = (st, .noop))) := by
  intro st current_ptr
  refine ⟨?_, ?_, ?_⟩
  · intro h
    simp [unfail_non_deterministic_error, h]
  · intro err hsome hdet
    simp [unfail_non_deterministic_error, hsome, hdet]
  · intro err n hsome hdet hlower
    constructor
    · intro hge
      simp [unfail_non_deterministic_error, hsome, hdet, hlower, hge]
    · intro hlt
      simp [unfail_non_deterministic_error, hsome, hdet, hlower]
      omega

/-- C9 witness: a non-deterministic fatal error recorded at block 10 with
the head at block 12: the deployment is unfailed, health set to healthy
and the fatal error deleted. -/
theorem c9_unfail_witness :
    ({ empty_state with
        health := .failed
        fatalError := some ⟨"e1", false, none, .included 10⟩ } : StoreState).fatalError
      = some ⟨"e1", false, none, .included 10⟩
    ∧ unfail_non_deterministic_error
        { empty_state with
            health := .failed
            fatalError := some ⟨"e1", false, none, .included 10⟩ }
        ⟨12, [3]⟩
      = ({ empty_state with health := .healthy, fatalError := none }, .unfailed) :=
  ⟨by decide,
    ((c9_unfail_non_deterministic
        { empty_state with
            health := .failed
            fatalError := some ⟨"e1", false, none, .included 10⟩ }
        ⟨12, [3]⟩).2.2
      ⟨"e1", false, none, .included 10⟩ 10 (by decide) (by decide) (by decide)).1
      (by decide)⟩

end DeploymentStore
